import Mathlib

/-!
Shallow embedding of the AI-Widget-Chat Angular front end
(`frontend/src/app`): the domain models (`models/chat.model.ts`,
`models/widget.model.ts`), the chat state service
(`services/chat.service.ts`), the widget service helpers
(`services/widget.service.ts`) and the chat view component
(`components/chat/chat.component.ts`).

TypeScript `number` fields are modelled as `ℚ` (JavaScript numbers; every
value the claims touch is exact in both), ISO date strings and other strings
as `String`, optional fields as `Option`, and `data : any` on a widget as an
optional tagged payload covering the typed payload shapes of
`widget.model.ts` that the extraction helpers cast to.  Asynchronous HTTP
round trips are modelled by passing the server's answer (or the failure) to
the success/error handler explicitly, so each handler is a pure state
transition.
-/

/-! ## Domain models (`models/widget.model.ts`, `models/chat.model.ts`) -/

/-- The closed widget-type union of `chat.model.ts`. -/
inductive WidgetType where
  | weather
  | stock
  | news
  | clock
  | custom
deriving DecidableEq, Repr

/-- Nested `location` record of `WeatherData`. -/
structure WeatherLocation where
  name : String
  country : String
deriving DecidableEq, Repr

/-- Nested `current` record of `WeatherData`. -/
structure WeatherCurrent where
  temperature : ℚ
  feels_like : ℚ
  description : String
  icon : String
deriving DecidableEq, Repr

/-- Nested `details` record of `WeatherData`. -/
structure WeatherDetails where
  humidity : ℚ
  pressure : ℚ
  wind_speed : ℚ
  visibility : ℚ
deriving DecidableEq, Repr

/-- The `WeatherData` payload of `widget.model.ts`. -/
structure WeatherData where
  location : WeatherLocation
  current : WeatherCurrent
  details : WeatherDetails
  timestamp : String
  mock : Option Bool
deriving DecidableEq, Repr

/-- Nested `price` record of `StockData`. -/
structure StockPrice where
  current : ℚ
  «open» : ℚ
  previous_close : ℚ
deriving DecidableEq, Repr

/-- Nested `change` record of `StockData`. -/
structure StockChange where
  amount : ℚ
  percentage : ℚ
  is_positive : Bool
  formatted : String
deriving DecidableEq, Repr

/-- Nested `range` record of `StockData`. -/
structure StockRange where
  high : ℚ
  low : ℚ
deriving DecidableEq, Repr

/-- The `StockData` payload of `widget.model.ts`. -/
structure StockData where
  symbol : String
  company_name : String
  price : StockPrice
  change : StockChange
  range : StockRange
  volume : ℚ
  timestamp : String
  mock : Option Bool
deriving DecidableEq, Repr

/-- The `NewsArticle` record of `widget.model.ts`. -/
structure NewsArticle where
  title : String
  description : String
  url : String
  source : String
  published_at : String
  image_url : Option String
  read_time : Option String
  summary : Option String
deriving DecidableEq, Repr

/-- The `NewsData` payload of `widget.model.ts`. -/
structure NewsData where
  query : String
  total_results : ℚ
  articles : List NewsArticle
  timestamp : String
  mock : Option Bool
deriving DecidableEq, Repr

/-- Nested `time` record of `ClockData`. -/
structure ClockTime where
  current : String
  formatted_12h : String
  formatted_24h : String
  hour : ℚ
  hour_12 : ℚ
  minute : ℚ
  second : ℚ
  am_pm : String
deriving DecidableEq, Repr

/-- Nested `date` record of `ClockData`. -/
structure ClockDate where
  full : String
  day_of_week : String
  month : String
  day : String
  year : String
deriving DecidableEq, Repr

/-- The `ClockData` payload of `widget.model.ts`. -/
structure ClockData where
  timezone : String
  location : String
  time : ClockTime
  date : ClockDate
  utc_offset : String
  timestamp : String
  mock : Option Bool
deriving DecidableEq, Repr

/-- Runtime value of a widget's `data : any` field: one of the typed
payload shapes of `widget.model.ts` that the extraction helpers of
`widget.service.ts` cast to. -/
inductive WidgetPayload where
  | weather (d : WeatherData)
  | stock (d : StockData)
  | news (d : NewsData)
  | clock (d : ClockData)
deriving DecidableEq, Repr

/-- Widget size union of `WidgetConfig`. -/
inductive WidgetSize where
  | small
  | medium
  | large
deriving DecidableEq, Repr

/-- Widget theme union of `WidgetConfig`. -/
inductive WidgetTheme where
  | light
  | dark
  | auto
deriving DecidableEq, Repr

/-- The `WidgetConfig` record of `chat.model.ts`; its open-ended
index-signature keys are unobserved by the inspected code and omitted. -/
structure WidgetConfig where
  size : WidgetSize
  theme : WidgetTheme
  refreshInterval : Option ℚ
deriving DecidableEq, Repr

/-- The `WidgetAction` record of `chat.model.ts` (open-ended keys omitted). -/
structure WidgetAction where
  type : String
  label : String
  icon : Option String
  description : Option String
deriving DecidableEq, Repr

/-- The `WidgetMetadata` record of `chat.model.ts`. -/
structure WidgetMetadata where
  created_at : String
  updated_at : String
  source : String
  version : String
deriving DecidableEq, Repr

/-- The `Widget` record of `chat.model.ts`; `data : any` is `none` when the
runtime value is null/undefined. -/
structure Widget where
  id : String
  type : WidgetType
  title : String
  data : Option WidgetPayload
  config : WidgetConfig
  actions : Option (List WidgetAction)
  metadata : Option WidgetMetadata
deriving DecidableEq, Repr

/-- Message role union of `chat.model.ts`. -/
inductive MessageRole where
  | user
  | assistant
deriving DecidableEq, Repr

/-- The `ChatSession` record of `chat.model.ts`. -/
structure ChatSession where
  id : ℚ
  user_id : String
  title : Option String
  created_at : String
  updated_at : String
deriving DecidableEq, Repr

/-- The `Message` record of `chat.model.ts`. -/
structure Message where
  id : ℚ
  session_id : ℚ
  content : String
  role : MessageRole
  widgets : Option (List Widget)
  created_at : String
deriving DecidableEq, Repr

/-- The `ChatRequest` record of `chat.model.ts`. -/
structure ChatRequest where
  message : String
  session_id : Option ℚ
  user_id : String
deriving DecidableEq, Repr

/-- The `ChatResponse` record of `chat.model.ts`. -/
structure ChatResponse where
  user_message : Message
  assistant_message : Message
  session_id : ℚ
  widgets : Option (List Widget)
deriving DecidableEq, Repr

/-! ## Widget service helpers (`services/widget.service.ts`) -/

/-- Embeds `extractWeatherData(widget) { return widget?.data as WeatherData || null }`:
the optional chaining makes a null widget yield null, the `|| null` turns a
null/undefined `data` into null, and the cast is a no-op at runtime — the
widget's `type` tag is never consulted. -/
def extractWeatherData (widget : Option Widget) : Option WidgetPayload :=
  match widget with
  | none => none
  | some w => w.data

/-- Embeds `extractStockData(widget) { return widget?.data as StockData || null }`. -/
def extractStockData (widget : Option Widget) : Option WidgetPayload :=
  match widget with
  | none => none
  | some w => w.data

/-- Embeds `extractNewsData(widget) { return widget?.data as NewsData || null }`. -/
def extractNewsData (widget : Option Widget) : Option WidgetPayload :=
  match widget with
  | none => none
  | some w => w.data

/-- Embeds `extractClockData(widget) { return widget?.data as ClockData || null }`. -/
def extractClockData (widget : Option Widget) : Option WidgetPayload :=
  match widget with
  | none => none
  | some w => w.data

/-- Number of tenths after rounding, as `Number.prototype.toFixed(1)` does:
nearest tenth, ties away from zero. -/
def roundTenths (x : ℚ) : Int :=
  if 0 ≤ x then ⌊x * 10 + 1 / 2⌋ else -⌊-x * 10 + 1 / 2⌋

/-- Renders a count of tenths with exactly one decimal digit. -/
def renderTenths (n : Nat) : String :=
  toString (n / 10) ++ "." ++ toString (n % 10)

/-- Models JavaScript `Number.prototype.toFixed(1)` on an exact rational:
round to the nearest tenth, ties away from zero, rendered with exactly one
decimal digit.  (Every input the claims use is exact, so binary-float
rounding never shows.) -/
def toFixed1 (x : ℚ) : String :=
  if roundTenths x < 0 then "-" ++ renderTenths (roundTenths x).natAbs
  else renderTenths (roundTenths x).natAbs

/-- Temperature unit union of `formatTemperature`. -/
inductive TempUnit where
  | celsius
  | fahrenheit
deriving DecidableEq, Repr

/-- Embeds `formatTemperature(temp, unit = 'celsius')` of `widget.service.ts`:
fahrenheit branch computes `(temp * 9/5) + 32` and renders with `toFixed(1)`
and a degree suffix; otherwise renders celsius the same way. -/
def formatTemperature (temp : ℚ) (unit : TempUnit := TempUnit.celsius) : String :=
  if unit = TempUnit.fahrenheit then
    toFixed1 (temp * 9 / 5 + 32) ++ "°F"
  else
    toFixed1 temp ++ "°C"

/-- The local `diffInSeconds` of `formatRelativeTime`:
`Math.floor((now.getTime() - date.getTime()) / 1000)` with both clock
readings passed in as epoch milliseconds. -/
def diffInSeconds (timestampMs nowMs : ℚ) : Int :=
  ⌊(nowMs - timestampMs) / 1000⌋

/-- Embeds `formatRelativeTime` of `widget.service.ts`: bucket the elapsed
time by the floored second difference, with `Math.floor` on each quotient. -/
def formatRelativeTime (timestampMs nowMs : ℚ) : String :=
  if diffInSeconds timestampMs nowMs < 60 then "Just now"
  else if diffInSeconds timestampMs nowMs < 3600 then
    toString ⌊(diffInSeconds timestampMs nowMs : ℚ) / 60⌋ ++ "m ago"
  else if diffInSeconds timestampMs nowMs < 86400 then
    toString ⌊(diffInSeconds timestampMs nowMs : ℚ) / 3600⌋ ++ "h ago"
  else
    toString ⌊(diffInSeconds timestampMs nowMs : ℚ) / 86400⌋ ++ "d ago"

/-! ## Chat state service (`services/chat.service.ts`) -/

/-- Observable state owned by `ChatService`: the `currentSessionSubject`
and `messagesSubject` behaviour subjects. -/
structure ChatServiceState where
  currentSession : Option ChatSession
  messages : List Message
deriving DecidableEq, Repr

/-- The initial subject values: no session, empty message list. -/
def initialChatServiceState : ChatServiceState :=
  { currentSession := none, messages := [] }

/-- Embeds the `tap` success handler of `ChatService.sendMessage`: replace
the current session by a freshly built record (only `session_id` comes from
the response, `user_id` from the request, title the literal `'Current Chat'`,
both timestamps `new Date().toISOString()`, passed in as `nowIso`), then
append the returned user and assistant messages to the message list. -/
def sendMessageSuccess (request : ChatRequest) (response : ChatResponse)
    (nowIso : String) (s : ChatServiceState) : ChatServiceState :=
  { currentSession := some
      { id := response.session_id
        user_id := request.user_id
        title := some "Current Chat"
        created_at := nowIso
        updated_at := nowIso }
    messages := s.messages ++ [response.user_message, response.assistant_message] }

/-- Embeds `ChatService.setCurrentSession(session)`: push the session to the
subject; when it is non-null, `getSessionMessages(session.id)` is issued and
its `tap` replaces the message list wholesale with the server's answer
(modelled by the `serverMessages` oracle, applied at the session id); when it
is null, the message list is reset to `[]`. -/
def setCurrentSession (session : Option ChatSession)
    (serverMessages : ℚ → List Message) (s : ChatServiceState) : ChatServiceState :=
  match session with
  | some sess => { currentSession := some sess, messages := serverMessages sess.id }
  | none => { currentSession := none, messages := [] }

/-! ## Chat view component (`components/chat/chat.component.ts`) -/

/-- Models JavaScript `String.prototype.trim()`: drop whitespace from both
ends (the inputs the claims use contain only ASCII whitespace, where the
JavaScript and Lean whitespace classes agree). -/
def jsTrim (s : String) : String :=
  String.mk (((s.data.dropWhile Char.isWhitespace).reverse.dropWhile Char.isWhitespace).reverse)

/-- State of the chat view: the component's own fields plus the service
state it both drives and mirrors (the `currentSession$` / `messages$`
subscriptions of `subscribeToChatUpdates` replay the subjects synchronously,
so the component's `currentSession` and `messages` mirrors are read off the
service state). -/
structure ChatComponentState where
  currentMessage : String
  isLoading : Bool
  sessions : List ChatSession
  sidebarOpen : Bool
  service : ChatServiceState
deriving DecidableEq, Repr

/-- Outcome of the HTTP round trip behind `chatService.sendMessage`. -/
inductive SendResult where
  | success (response : ChatResponse)
  | failure
deriving DecidableEq, Repr

/-- Embeds `ChatComponent.sendMessage()` together with the subscribe
handlers, as one transition fed with the round-trip outcome.  The guard
`if (!this.currentMessage.trim() || this.isLoading) return;` makes the call
a no-op (no request issued) on blank input or while loading.  Otherwise the
trimmed text is saved in `message`, the input is cleared, the loading flag
set, and the request posted; on success the handler clears the loading flag
(the service `tap` already updated session and messages); on error it clears
the loading flag and restores the saved text to the input.  Returns the new
state and the request that was issued, if any. -/
def componentSendMessage (result : SendResult) (nowIso : String)
    (s : ChatComponentState) : ChatComponentState × Option ChatRequest :=
  if jsTrim s.currentMessage = "" ∨ s.isLoading then (s, none)
  else
    let message := jsTrim s.currentMessage
    let request : ChatRequest :=
      { message := message
        session_id := s.service.currentSession.map ChatSession.id
        user_id := "default_user" }
    match result with
    | SendResult.success response =>
        ({ s with
            currentMessage := ""
            isLoading := false
            service := sendMessageSuccess request response nowIso s.service },
          some request)
    | SendResult.failure =>
        ({ s with currentMessage := message, isLoading := false }, some request)

/-- Embeds the delete-confirmed success handler of
`ChatComponent.deleteSession(session)`: filter the deleted id out of the
local session list, and if the deleted session was the currently selected
one, reselect `this.sessions[0] || null` through
`chatService.setCurrentSession`. -/
def deleteSessionSuccess (session : ChatSession)
    (serverMessages : ℚ → List Message) (s : ChatComponentState) : ChatComponentState :=
  let sessions' := s.sessions.filter (fun t => t.id ≠ session.id)
  if s.service.currentSession.map ChatSession.id = some session.id then
    { s with
        sessions := sessions'
        service := setCurrentSession sessions'.head? serverMessages s.service }
  else
    { s with sessions := sessions' }

/-! ## Concrete sample data used by witnesses and counterexamples -/

/-- A concrete stock payload. -/
def sampleStockData : StockData :=
  { symbol := "AAPL"
    company_name := "Apple Inc."
    price := { current := 190, «open» := 189, previous_close := 188 }
    change := { amount := 2, percentage := 1, is_positive := true, formatted := "+1.00%" }
    range := { high := 191, low := 188 }
    volume := 1000000
    timestamp := "2024-01-01T00:00:00Z"
    mock := some true }

/-- A concrete widget configuration. -/
def sampleWidgetConfig : WidgetConfig :=
  { size := WidgetSize.medium, theme := WidgetTheme.auto, refreshInterval := none }

/-- A widget tagged `stock` and carrying a stock payload. -/
def stockTypedWidget : Widget :=
  { id := "w1"
    type := WidgetType.stock
    title := "AAPL"
    data := some (WidgetPayload.stock sampleStockData)
    config := sampleWidgetConfig
    actions := none
    metadata := none }

/-- A component state whose composed input is whitespace-only. -/
def blankInputState : ChatComponentState :=
  { currentMessage := "   "
    isLoading := false
    sessions := []
    sidebarOpen := true
    service := initialChatServiceState }

/-- A component state whose composed input carries trailing whitespace. -/
def paddedInputState : ChatComponentState :=
  { currentMessage := "hi "
    isLoading := false
    sessions := []
    sidebarOpen := true
    service := initialChatServiceState }

/-- A component state with a plain composed input. -/
def composedInputState : ChatComponentState :=
  { currentMessage := "hello"
    isLoading := false
    sessions := []
    sidebarOpen := true
    service := initialChatServiceState }

/-- A concrete session with id 7. -/
def sampleSession7 : ChatSession :=
  { id := 7, user_id := "default_user", title := some "Trip"
    created_at := "2024-01-01", updated_at := "2024-01-01" }

/-- A concrete session with id 8. -/
def sampleSession8 : ChatSession :=
  { id := 8, user_id := "default_user", title := some "Food"
    created_at := "2024-01-02", updated_at := "2024-01-02" }

/-- A component state holding two sessions with session 7 selected. -/
def twoSessionState : ChatComponentState :=
  { currentMessage := ""
    isLoading := false
    sessions := [sampleSession7, sampleSession8]
    sidebarOpen := true
    service := { currentSession := some sampleSession7, messages := [] } }

/-- A message oracle returning no messages for any session. -/
def noMessages : ℚ → List Message := fun _ => []

/-! ## Theorems -/

/-- Claim C1, counterexample: a widget whose type is `stock` (not `weather`)
with a non-null payload makes `extractWeatherData` return that payload, not
none — the helper never consults the type tag, so the claimed type guard
does not hold. -/
theorem extractWeatherData_no_type_guard :
    stockTypedWidget.type ≠ WidgetType.weather ∧
    extractWeatherData (some stockTypedWidget) ≠ none ∧
    extractWeatherData (some stockTypedWidget) = some (WidgetPayload.stock sampleStockData) :=
  ⟨by decide, by decide, rfl⟩

/-- Claim C1, amended: each extraction helper returns the widget's `data`
field unchanged — none exactly when the widget or its data is null —
irrespective of the widget's `type` tag; the four helpers behave
identically. -/
theorem extractData_ignores_type (w : Widget) (t : WidgetType) :
    extractWeatherData (some w) = w.data ∧
    extractStockData (some w) = w.data ∧
    extractNewsData (some w) = w.data ∧
    extractClockData (some w) = w.data ∧
    extractWeatherData (some { w with type := t }) = extractWeatherData (some w) ∧
    extractStockData (some { w with type := t }) = extractStockData (some w) ∧
    extractNewsData (some { w with type := t }) = extractNewsData (some w) ∧
    extractClockData (some { w with type := t }) = extractClockData (some w) ∧
    extractWeatherData none = none ∧
    extractStockData none = none ∧
    extractNewsData none = none ∧
    extractClockData none = none :=
  ⟨rfl, rfl, rfl, rfl, rfl, rfl, rfl, rfl, rfl, rfl, rfl, rfl⟩

/-- Claim C2: a successful `sendMessage` appends exactly the returned user
message followed by the returned assistant message to the local list,
whatever its prior content, and makes the current session's id the returned
`session_id`. -/
theorem sendMessage_appends_two (request : ChatRequest) (response : ChatResponse)
    (nowIso : String) (s : ChatServiceState) :
    (sendMessageSuccess request response nowIso s).messages
        = s.messages ++ [response.user_message, response.assistant_message] ∧
    (sendMessageSuccess request response nowIso s).currentSession.map ChatSession.id
        = some response.session_id :=
  ⟨rfl, rfl⟩

/-- Claim C3: selecting a session replaces the message list wholesale with
that session's freshly fetched messages; selecting none clears it; in
particular after `selectSession(s)` followed by `selectSession(none)` the
message list is empty. -/
theorem selectSession_then_none_clears (sess : ChatSession)
    (f g : ℚ → List Message) (s : ChatServiceState) :
    (setCurrentSession none g (setCurrentSession (some sess) f s)).messages = [] ∧
    (setCurrentSession (some sess) f s).messages = f sess.id ∧
    (setCurrentSession (some sess) f s).currentSession = some sess ∧
    (setCurrentSession none g s).messages = [] ∧
    (setCurrentSession none g s).currentSession = none :=
  ⟨rfl, rfl, rfl, rfl, rfl⟩

/-- Claim C4: after a successful delete of the currently selected session,
the current session is either none or some session still present in the
local session list, and its id is never the deleted id. -/
theorem deleteSession_reselects_valid (session : ChatSession)
    (serverMessages : ℚ → List Message) (s : ChatComponentState)
    (h : s.service.currentSession.map ChatSession.id = some session.id) :
    ((deleteSessionSuccess session serverMessages s).service.currentSession = none ∨
      ∃ t, (deleteSessionSuccess session serverMessages s).service.currentSession = some t ∧
        t ∈ (deleteSessionSuccess session serverMessages s).sessions) ∧
    (deleteSessionSuccess session serverMessages s).service.currentSession.map ChatSession.id
        ≠ some session.id := by
  simp only [deleteSessionSuccess]
  rw [if_pos h]
  cases hh : (s.sessions.filter (fun t => t.id ≠ session.id)).head? with
  | none =>
      exact ⟨Or.inl rfl, by simp [setCurrentSession]⟩
  | some t =>
      have htmem : t ∈ s.sessions.filter (fun u => u.id ≠ session.id) :=
        List.mem_of_mem_head? hh
      have htid : t.id ≠ session.id := by
        have := (List.mem_filter.mp htmem).2
        exact of_decide_eq_true this
      constructor
      · exact Or.inr ⟨t, rfl, htmem⟩
      · intro heq
        apply htid
        have hsome : some t.id = some session.id := heq
        exact Option.some.inj hsome

/-- Claim C4 witness: deleting currently selected session 7 out of the
two-session state leaves session 8 selected. -/
theorem deleteSession_reselects_valid_witness :
    twoSessionState.service.currentSession.map ChatSession.id = some sampleSession7.id ∧
    (((deleteSessionSuccess sampleSession7 noMessages twoSessionState).service.currentSession = none ∨
      ∃ t, (deleteSessionSuccess sampleSession7 noMessages twoSessionState).service.currentSession = some t ∧
        t ∈ (deleteSessionSuccess sampleSession7 noMessages twoSessionState).sessions) ∧
    (deleteSessionSuccess sampleSession7 noMessages twoSessionState).service.currentSession.map ChatSession.id
        ≠ some sampleSession7.id) :=
  ⟨rfl, deleteSession_reselects_valid sampleSession7 noMessages twoSessionState rfl⟩

/-- Claim C5, counterexample: with composed input carrying trailing
whitespace, a failed send restores the trimmed text, which differs from the
composed text — the claim that the composed text itself is restored fails. -/
theorem sendFailure_not_composed_text :
    (componentSendMessage SendResult.failure "2024-01-01T00:00:00Z" paddedInputState).1.currentMessage
        = "hi" ∧
    (componentSendMessage SendResult.failure "2024-01-01T00:00:00Z" paddedInputState).1.currentMessage
        ≠ paddedInputState.currentMessage :=
  ⟨by decide, by decide⟩

/-- Claim C5, amended: when a send was actually issued (non-blank input, not
already loading) and fails, the trimmed composed text is restored to the
input field, so the text is never discarded (the restored text is nonempty). -/
theorem sendFailure_restores_trimmed (nowIso : String) (s : ChatComponentState)
    (ht : jsTrim s.currentMessage ≠ "") (hl : s.isLoading = false) :
    (componentSendMessage SendResult.failure nowIso s).1.currentMessage
        = jsTrim s.currentMessage ∧
    (componentSendMessage SendResult.failure nowIso s).1.currentMessage ≠ "" := by
  have hng : ¬(jsTrim s.currentMessage = "" ∨ s.isLoading = true) := by
    rintro (h | h)
    · exact ht h
    · rw [hl] at h
      cases h
  unfold componentSendMessage
  rw [if_neg hng]
  exact ⟨rfl, ht⟩

/-- Claim C5 witness: a failed send of the composed text "hello" restores
"hello" to the input. -/
theorem sendFailure_restores_trimmed_witness :
    jsTrim composedInputState.currentMessage ≠ "" ∧
    composedInputState.isLoading = false ∧
    ((componentSendMessage SendResult.failure "2024-01-02T00:00:00Z" composedInputState).1.currentMessage
        = jsTrim composedInputState.currentMessage ∧
      (componentSendMessage SendResult.failure "2024-01-02T00:00:00Z" composedInputState).1.currentMessage
        ≠ "") :=
  ⟨by decide, by decide,
   sendFailure_restores_trimmed "2024-01-02T00:00:00Z" composedInputState (by decide) (by decide)⟩

/-- Claim C6: formatRelativeTime buckets the floored second difference —
under 60 seconds gives "Just now", under an hour the floored minute count
with "m ago", under 24 hours the floored hour count with "h ago", otherwise
the floored day count with "d ago". -/
theorem formatRelativeTime_buckets (tsMs nowMs : ℚ) :
    (diffInSeconds tsMs nowMs < 60 → formatRelativeTime tsMs nowMs = "Just now") ∧
    (60 ≤ diffInSeconds tsMs nowMs → diffInSeconds tsMs nowMs < 3600 →
      formatRelativeTime tsMs nowMs
        = toString ⌊(diffInSeconds tsMs nowMs : ℚ) / 60⌋ ++ "m ago") ∧
    (3600 ≤ diffInSeconds tsMs nowMs → diffInSeconds tsMs nowMs < 86400 →
      formatRelativeTime tsMs nowMs
        = toString ⌊(diffInSeconds tsMs nowMs : ℚ) / 3600⌋ ++ "h ago") ∧
    (86400 ≤ diffInSeconds tsMs nowMs →
      formatRelativeTime tsMs nowMs
        = toString ⌊(diffInSeconds tsMs nowMs : ℚ) / 86400⌋ ++ "d ago") := by
  unfold formatRelativeTime
  refine ⟨fun h1 => ?_, fun h1 h2 => ?_, fun h1 h2 => ?_, fun h1 => ?_⟩
  · rw [if_pos h1]
  · rw [if_neg (by omega), if_pos h2]
  · rw [if_neg (by omega), if_neg (by omega), if_pos h2]
  · rw [if_neg (by omega), if_neg (by omega), if_neg (by omega)]

/-- Claim C6 witness: 59 seconds elapsed gives "Just now", 61 seconds gives
"1m ago", 3661 seconds gives "1h ago". -/
theorem formatRelativeTime_buckets_witness :
    formatRelativeTime 0 59000 = "Just now" ∧
    formatRelativeTime 0 61000 = "1m ago" ∧
    formatRelativeTime 0 3661000 = "1h ago" := by
  have h59 : diffInSeconds 0 59000 = 59 := by
    unfold diffInSeconds
    rw [Int.floor_eq_iff]
    constructor <;> norm_num
  have h61 : diffInSeconds 0 61000 = 61 := by
    unfold diffInSeconds
    rw [Int.floor_eq_iff]
    constructor <;> norm_num
  have h3661 : diffInSeconds 0 3661000 = 3661 := by
    unfold diffInSeconds
    rw [Int.floor_eq_iff]
    constructor <;> norm_num
  refine ⟨(formatRelativeTime_buckets 0 59000).1 (by rw [h59]; norm_num),
    ((formatRelativeTime_buckets 0 61000).2.1 (by rw [h61]; norm_num)
      (by rw [h61]; norm_num)).trans ?_,
    ((formatRelativeTime_buckets 0 3661000).2.2.1 (by rw [h3661]; norm_num)
      (by rw [h3661]; norm_num)).trans ?_⟩
  · rw [h61]
    have hq : (⌊((61 : ℤ) : ℚ) / 60⌋ : ℤ) = 1 := by
      rw [Int.floor_eq_iff]
      constructor <;> norm_num
    rw [hq]
    rfl
  · rw [h3661]
    have hq : (⌊((3661 : ℤ) : ℚ) / 3600⌋ : ℤ) = 1 := by
      rw [Int.floor_eq_iff]
      constructor <;> norm_num
    rw [hq]
    rfl

/-- Claim C7: formatTemperature defaults to celsius and renders one decimal
place — 20 celsius gives "20.0°C", 20 with fahrenheit gives "68.0°F" — and
the fahrenheit branch applies the conversion temp * 9/5 + 32. -/
theorem formatTemperature_values :
    formatTemperature 20 = "20.0°C" ∧
    formatTemperature 20 TempUnit.celsius = "20.0°C" ∧
    formatTemperature 20 TempUnit.fahrenheit = "68.0°F" ∧
    ∀ c : ℚ, formatTemperature c TempUnit.fahrenheit = toFixed1 (c * 9 / 5 + 32) ++ "°F" := by
  have hc : roundTenths 20 = 200 := by
    unfold roundTenths
    rw [if_pos (by norm_num : (0 : ℚ) ≤ 20), Int.floor_eq_iff]
    constructor <;> norm_num
  have hf : roundTenths ((20 : ℚ) * 9 / 5 + 32) = 680 := by
    unfold roundTenths
    rw [if_pos (by norm_num : (0 : ℚ) ≤ (20 : ℚ) * 9 / 5 + 32), Int.floor_eq_iff]
    constructor <;> norm_num
  have htc : toFixed1 20 = "20.0" := by
    unfold toFixed1
    rw [hc]
    rfl
  have htf : toFixed1 ((20 : ℚ) * 9 / 5 + 32) = "68.0" := by
    unfold toFixed1
    rw [hf]
    rfl
  refine ⟨?_, ?_, ?_, fun c => rfl⟩
  · show toFixed1 20 ++ "°C" = "20.0°C"
    rw [htc]
    rfl
  · show toFixed1 20 ++ "°C" = "20.0°C"
    rw [htc]
    rfl
  · show toFixed1 ((20 : ℚ) * 9 / 5 + 32) ++ "°F" = "68.0°F"
    rw [htf]
    rfl

/-- Claim C8: after a successful `sendMessage` the current session is a
freshly synthesized record: id from the response, user id from the request,
title the constant "Current Chat", and both timestamps the client's current
time — whatever session was held before. -/
theorem sendMessage_overwrites_session (request : ChatRequest) (response : ChatResponse)
    (nowIso : String) (s : ChatServiceState) :
    (sendMessageSuccess request response nowIso s).currentSession = some
      { id := response.session_id
        user_id := request.user_id
        title := some "Current Chat"
        created_at := nowIso
        updated_at := nowIso } :=
  rfl

/-- Claim C9: the chat view's sendMessage is a no-op — state unchanged and
no request issued — when the composed input trims to empty or a previous
send is still in flight. -/
theorem componentSendMessage_noop (result : SendResult) (nowIso : String)
    (s : ChatComponentState)
    (h : jsTrim s.currentMessage = "" ∨ s.isLoading = true) :
    componentSendMessage result nowIso s = (s, none) := by
  unfold componentSendMessage
  rw [if_pos h]

/-- Claim C9 witness: a whitespace-only composed input makes sendMessage a
no-op. -/
theorem componentSendMessage_noop_witness :
    (jsTrim blankInputState.currentMessage = "" ∨ blankInputState.isLoading = true) ∧
    componentSendMessage SendResult.failure "2024-01-03T00:00:00Z" blankInputState
        = (blankInputState, none) :=
  ⟨Or.inl (by decide),
   componentSendMessage_noop SendResult.failure "2024-01-03T00:00:00Z" blankInputState
     (Or.inl (by decide))⟩

/-- Claim C10: a timestamp in the future (negative elapsed difference)
yields "Just now", since the floored second difference is negative and hence
below 60. -/
theorem formatRelativeTime_future (tsMs nowMs : ℚ) (h : nowMs < tsMs) :
    formatRelativeTime tsMs nowMs = "Just now" := by
  have hlt : diffInSeconds tsMs nowMs < 60 := by
    unfold diffInSeconds
    refine Int.floor_lt.mpr ?_
    have hneg : (nowMs - tsMs) / 1000 < 0 :=
      div_neg_of_neg_of_pos (by linarith) (by norm_num)
    push_cast
    linarith
  unfold formatRelativeTime
  rw [if_pos hlt]

/-- Claim C10 witness: one second in the future still renders "Just now". -/
theorem formatRelativeTime_future_witness :
    (0 : ℚ) < 1000 ∧ formatRelativeTime 1000 0 = "Just now" :=
  ⟨by norm_num, formatRelativeTime_future 1000 0 (by norm_num)⟩
